import Mathlib

/-
Verification development for the real-time coordination core of the
CognEdgeTeams backend (services/UserService.js).  The socket handlers are
shallowly embedded: JavaScript `Map`s and plain objects become association
lists with JS `Map.set` semantics (update-in-place keeps insertion order,
new keys are appended), and each `socket.on` handler becomes a pure Lean
function from the relevant state and event data to the successor state and
the list of emissions it performs.
-/

set_option autoImplicit false

namespace CognEdge

/-! ### Association-list maps (JS `Map` / object semantics) -/

/-- JS `Map.set` / object-key assignment: update in place when the key
exists (keeping its position, as JS insertion order does), append otherwise. -/
def mset {α : Type} : List (String × α) → String → α → List (String × α)
  | [], k, v => [(k, v)]
  | (k', v') :: rest, k, v =>
    if k' = k then (k, v) :: rest else (k', v') :: mset rest k v

/-- JS `Map.get` / property access: first binding of the key, if any. -/
def mget {α : Type} : List (String × α) → String → Option α
  | [], _ => none
  | (k', v) :: rest, k => if k' = k then some v else mget rest k

/-- JS `Map.delete` / rest-destructuring a key away. -/
def mdel {α : Type} (l : List (String × α)) (k : String) : List (String × α) :=
  l.filter (fun p => p.1 != k)

/-- JS `Map.has`. -/
def mhas {α : Type} (l : List (String × α)) (k : String) : Bool :=
  (mget l k).isSome

/-! ### Users, sockets, and event payload values -/

/-- The authenticated principal attached to a socket (`socket.user`):
`full_name` models `user_metadata?.full_name` (absent or present,
where the empty string is falsy under JS `||`). -/
structure User where
  id : String
  email : String
  full_name : Option String
deriving DecidableEq, Repr

/-- Models `email.split('@')[0]`. -/
def localPart (email : String) : String := (email.splitOn "@").headD ""

/-- Models `socket.user.user_metadata?.full_name || socket.user.email.split('@')[0]`. -/
def displayShort (u : User) : String :=
  match u.full_name with
  | some n => if n = "" then localPart u.email else n
  | none => localPart u.email

/-- Models `socket.user.user_metadata?.full_name || socket.user.email`. -/
def displayFull (u : User) : String :=
  match u.full_name with
  | some n => if n = "" then u.email else n
  | none => u.email

/-- A live socket: its id (`socket.id`) and its principal (`socket.user`). -/
structure Sock where
  sid : String
  u : User
deriving DecidableEq, Repr

/-- A field value inside an inbound/outbound event payload object. -/
inductive FVal where
  | s (v : String)
  | fnull
  | sarr (l : List String)
deriving DecidableEq, Repr

/-- A JS payload object: field name to value, in insertion order. -/
abbrev JObj := List (String × FVal)

/-- Destructuring a field out of a payload (`const { f } = data`);
a missing field reads as null/undefined. -/
def jget (o : JObj) (k : String) : FVal := (mget o k).getD .fnull

/-- String interpolation of a field value into a room name. -/
def jstr : FVal → String
  | .s v => v
  | _ => "undefined"

/-- Rest-destructuring a field away (`const { k, ...rest } = data`). -/
def jerase (o : JObj) (k : String) : JObj := mdel o k

/-- JS object spread `{ ...base, ...ext }`: later fields override earlier
ones in place, new fields are appended. -/
def jmerge (base ext : JObj) : JObj :=
  ext.foldl (fun acc kv => mset acc kv.1 kv.2) base

/-! ### Emissions (outbound deliveries) -/

/-- Where an emission goes: `socket.emit` (the socket itself),
`socket.to(room).emit` (the room's members except the sender),
`socket.broadcast.emit` (every connection in the namespace except the sender). -/
inductive Target where
  | toSelf (sid : String)
  | toRoom (room : String) (excludeSid : String)
  | broadcastAll (excludeSid : String)
deriving DecidableEq, Repr

/-- One per-meeting participant record: keyed by socket id within the
meeting's map; `peer_id` is null until `peer-connected`. -/
structure Participant where
  id : String
  user_id : String
  user_name : String
  user_email : String
  peer_id : Option String
deriving DecidableEq, Repr

/-- The payload of an outbound emission. -/
inductive Payload where
  | obj (o : JObj)
  | part (p : Participant)
  | parr (ps : List Participant)
  | users (l : List (String × String))
  | val (v : FVal)
deriving DecidableEq, Repr

/-- One outbound delivery performed by a handler. -/
structure Emission where
  target : Target
  event : String
  payload : Payload
deriving DecidableEq, Repr

/-! ### Room membership (the transport's room sets) -/

abbrev Rooms := List (String × List String)

def roomMembers (rooms : Rooms) (r : String) : List String :=
  (mget rooms r).getD []

/-- Models `socket.join(room)`: a socket already in the room is not added twice. -/
def roomJoin (rooms : Rooms) (r sid : String) : Rooms :=
  let ms := roomMembers rooms r
  if sid ∈ ms then rooms else mset rooms r (ms ++ [sid])

/-- Models `socket.leave(room)`. -/
def roomLeave (rooms : Rooms) (r sid : String) : Rooms :=
  mset rooms r ((roomMembers rooms r).filter (fun x => x != sid))

/-- On disconnect the transport removes the socket from every room. -/
def roomLeaveAll (rooms : Rooms) (sid : String) : Rooms :=
  rooms.map (fun p => (p.1, p.2.filter (fun x => x != sid)))

/-- The connections an emission is delivered to, given the room sets and
the list of all connected sockets of the namespace. -/
def recips (rooms : Rooms) (allSids : List String) (em : Emission) : List String :=
  match em.target with
  | .toSelf sid => [sid]
  | .toRoom r ex => (roomMembers rooms r).filter (fun x => x != ex)
  | .broadcastAll ex => allSids.filter (fun x => x != ex)

/-! ### Video-conference namespace (`io.of('/video-conference')`)

State: `meetingParticipants : Map meetingId -> Map socketId -> Participant`,
plus the transport's room sets for the `meeting:<id>` rooms. -/

abbrev PMap := List (String × Participant)
abbrev MStore := List (String × PMap)

structure VCState where
  store : MStore
  rooms : Rooms
deriving DecidableEq, Repr

def meetingRoom (mid : String) : String := "meeting:" ++ mid

/-- The participant record built on `join-meeting`
(`{ id: socket.id, user_id, user_name, user_email, peer_id: null }`). -/
def mkParticipant (sock : Sock) : Participant :=
  ⟨sock.sid, sock.u.id, displayShort sock.u, sock.u.email, none⟩

/-- Models `socket.on('join-meeting')`: join the room, create the per-meeting map
if absent, insert the record keyed by `socket.id`, send the other
participants to the joiner, and announce the joiner to the room. -/
def vcJoinMeeting (st : VCState) (sock : Sock) (mid : String) :
    VCState × List Emission :=
  let rooms1 := roomJoin st.rooms (meetingRoom mid) sock.sid
  let store1 := if mhas st.store mid then st.store else mset st.store mid []
  let ps := (mget store1 mid).getD []
  let ps1 := mset ps sock.sid (mkParticipant sock)
  let store2 := mset store1 mid ps1
  let existing := (ps1.map Prod.snd).filter (fun p => p.id != sock.sid)
  (⟨store2, rooms1⟩,
   [⟨.toSelf sock.sid, "existing-participants", .parr existing⟩,
    ⟨.toRoom (meetingRoom mid) sock.sid, "participant-joined",
     .part (mkParticipant sock)⟩])

/-- Models `socket.on('peer-connected')`: update the sender's record's `peer_id`
when the meeting and the record exist (silently skip otherwise), then relay
the peer id to the room — the relay is outside the existence check. -/
def vcPeerConnected (st : VCState) (sock : Sock)
    (mid _participantId peerId : String) : VCState × List Emission :=
  let store' :=
    if mhas st.store mid then
      let ps := (mget st.store mid).getD []
      match mget ps sock.sid with
      | some p => mset st.store mid (mset ps sock.sid { p with peer_id := some peerId })
      | none => st.store
    else st.store
  (⟨store', st.rooms⟩,
   [⟨.toRoom (meetingRoom mid) sock.sid, "peer-connected",
     .obj [("participantId", .s sock.sid), ("peerId", .s peerId)]⟩])

/-- Models `socket.on('get-participants')`: send the roster minus the requester
back to the requester; an unknown meeting yields the empty list. -/
def vcGetParticipants (st : VCState) (sock : Sock) (mid : String) :
    VCState × List Emission :=
  if mhas st.store mid then
    let ps := (mget st.store mid).getD []
    let lst := (ps.map Prod.snd).filter (fun p => p.id != sock.sid)
    (st, [⟨.toSelf sock.sid, "existing-participants", .parr lst⟩])
  else
    (st, [⟨.toSelf sock.sid, "existing-participants", .parr []⟩])

/-- Models `socket.on('leave-meeting')`: leave the transport room and announce the
departure; the participant record in the store is NOT touched. -/
def vcLeaveMeeting (st : VCState) (sock : Sock) (mid : String) :
    VCState × List Emission :=
  (⟨st.store, roomLeave st.rooms (meetingRoom mid) sock.sid⟩,
   [⟨.toRoom (meetingRoom mid) sock.sid, "participant-left",
     .obj [("id", .s sock.sid), ("user_id", .s sock.u.id)]⟩])

/-- Models `socket.on('webrtc-offer')`: destructures `{ offer, to, toParticipantId,
meetingId }` and relays `{ offer, from, fromParticipantId }` to the room —
the target fields are dropped. -/
def vcWebrtcOffer (sock : Sock) (data : JObj) : Emission :=
  ⟨.toRoom (meetingRoom (jstr (jget data "meetingId"))) sock.sid, "webrtc-offer",
   .obj [("offer", jget data "offer"),
         ("from", .s (displayShort sock.u)),
         ("fromParticipantId", .s sock.sid)]⟩

/-- Models `socket.on('webrtc-answer')`: same shape as the offer relay. -/
def vcWebrtcAnswer (sock : Sock) (data : JObj) : Emission :=
  ⟨.toRoom (meetingRoom (jstr (jget data "meetingId"))) sock.sid, "webrtc-answer",
   .obj [("answer", jget data "answer"),
         ("from", .s (displayShort sock.u)),
         ("fromParticipantId", .s sock.sid)]⟩

/-- Models `socket.on('webrtc-ice-candidate')`: same shape as the offer relay. -/
def vcWebrtcIce (sock : Sock) (data : JObj) : Emission :=
  ⟨.toRoom (meetingRoom (jstr (jget data "meetingId"))) sock.sid,
   "webrtc-ice-candidate",
   .obj [("candidate", jget data "candidate"),
         ("from", .s (displayShort sock.u)),
         ("fromParticipantId", .s sock.sid)]⟩

/-- First `socket.on('participant-update')` registration:
`{ participantId, meetingId, ...updates }` relayed as `{ id, ...updates }`. -/
def vcParticipantUpdate1 (sock : Sock) (data : JObj) : Emission :=
  let updates := jerase (jerase data "participantId") "meetingId"
  ⟨.toRoom (meetingRoom (jstr (jget data "meetingId"))) sock.sid,
   "participant-updated",
   .obj (jmerge [("id", jget data "participantId")] updates)⟩

/-- Second `socket.on('participant-update')` registration: relays the full
payload unchanged. -/
def vcParticipantUpdate2 (sock : Sock) (data : JObj) : Emission :=
  ⟨.toRoom (meetingRoom (jstr (jget data "meetingId"))) sock.sid,
   "participant-updated", .obj data⟩

/-- Models `socket.on('speaking-status')`. -/
def vcSpeakingStatus (sock : Sock) (data : JObj) : Emission :=
  ⟨.toRoom (meetingRoom (jstr (jget data "meetingId"))) sock.sid,
   "speaking-status",
   .obj [("participantId", jget data "participantId"),
         ("isSpeaking", jget data "isSpeaking")]⟩

/-- First `socket.on('chat-message')` registration: strips `meetingId` via
rest-destructuring and relays the remainder. -/
def vcChatMessage1 (sock : Sock) (data : JObj) : Emission :=
  ⟨.toRoom (meetingRoom (jstr (jget data "meetingId"))) sock.sid,
   "chat-message", .obj (jerase data "meetingId")⟩

/-- Second `socket.on('chat-message')` registration: relays the full
payload unchanged. -/
def vcChatMessage2 (sock : Sock) (data : JObj) : Emission :=
  ⟨.toRoom (meetingRoom (jstr (jget data "meetingId"))) sock.sid,
   "chat-message", .obj data⟩

/-- Models `socket.on('reaction')`: `{ meetingId, ...reaction }` relayed with the
sender's display name spliced in. -/
def vcReaction (sock : Sock) (data : JObj) : Emission :=
  ⟨.toRoom (meetingRoom (jstr (jget data "meetingId"))) sock.sid, "reaction",
   .obj (jmerge (jerase data "meetingId")
          [("user_name", .s (displayShort sock.u))])⟩

/-- Models `socket.on('raise-hand')`: relays the full payload. -/
def vcRaiseHand (sock : Sock) (data : JObj) : Emission :=
  ⟨.toRoom (meetingRoom (jstr (jget data "meetingId"))) sock.sid,
   "hand-raised", .obj data⟩

/-- Models `socket.on('mute-participant')`: relays the full payload. -/
def vcMuteParticipant (sock : Sock) (data : JObj) : Emission :=
  ⟨.toRoom (meetingRoom (jstr (jget data "meetingId"))) sock.sid,
   "participant-muted", .obj data⟩

/-- Models `socket.on('remove-participant')`: relays the full payload. -/
def vcRemoveParticipant (sock : Sock) (data : JObj) : Emission :=
  ⟨.toRoom (meetingRoom (jstr (jget data "meetingId"))) sock.sid,
   "participant-removed", .obj data⟩

/-- The departure notice sent for one meeting during cleanup. -/
def leftEmission (mid : String) (sock : Sock) : Emission :=
  ⟨.toRoom (meetingRoom mid) sock.sid, "participant-left",
   .obj [("id", .s sock.sid), ("user_id", .s sock.u.id)]⟩

/-- Models `socket.on('disconnect')` over the store: `meetingParticipants.forEach`
in insertion order; for each meeting containing the socket, delete the
record, notify the room, and delete the meeting entry when it is emptied. -/
def vcDisconnectStore : MStore → Sock → MStore × List Emission
  | [], _ => ([], [])
  | (mid, ps) :: rest, sock =>
    if mhas ps sock.sid then
      let ps' := mdel ps sock.sid
      let out := vcDisconnectStore rest sock
      (if ps' = [] then out.1 else (mid, ps') :: out.1,
       leftEmission mid sock :: out.2)
    else
      let out := vcDisconnectStore rest sock
      ((mid, ps) :: out.1, out.2)

/-- The whole disconnect step: store cleanup plus the transport removing
the socket from every room. -/
def vcDisconnect (st : VCState) (sock : Sock) : VCState × List Emission :=
  let out := vcDisconnectStore st.store sock
  (⟨out.1, roomLeaveAll st.rooms sock.sid⟩, out.2)

/-- The inbound events of the video-conference namespace. -/
inductive VCEv where
  | joinMeeting (sock : Sock) (mid : String)
  | peerConnected (sock : Sock) (mid participantId peerId : String)
  | getParticipants (sock : Sock) (mid : String)
  | leaveMeeting (sock : Sock) (mid : String)
  | webrtcOffer (sock : Sock) (data : JObj)
  | webrtcAnswer (sock : Sock) (data : JObj)
  | webrtcIce (sock : Sock) (data : JObj)
  | participantUpdate (sock : Sock) (data : JObj)
  | speakingStatus (sock : Sock) (data : JObj)
  | chatMessage (sock : Sock) (data : JObj)
  | reaction (sock : Sock) (data : JObj)
  | raiseHand (sock : Sock) (data : JObj)
  | muteParticipant (sock : Sock) (data : JObj)
  | removeParticipant (sock : Sock) (data : JObj)
  | disconnect (sock : Sock)
deriving DecidableEq, Repr

/-- One step of the video-conference namespace.  `chat-message` and
`participant-update` each have two registered handlers, which both run in
registration order on every inbound event of that name. -/
def vcStep (st : VCState) : VCEv → VCState × List Emission
  | .joinMeeting sock mid => vcJoinMeeting st sock mid
  | .peerConnected sock mid pid peerId => vcPeerConnected st sock mid pid peerId
  | .getParticipants sock mid => vcGetParticipants st sock mid
  | .leaveMeeting sock mid => vcLeaveMeeting st sock mid
  | .webrtcOffer sock data => (st, [vcWebrtcOffer sock data])
  | .webrtcAnswer sock data => (st, [vcWebrtcAnswer sock data])
  | .webrtcIce sock data => (st, [vcWebrtcIce sock data])
  | .participantUpdate sock data =>
      (st, [vcParticipantUpdate1 sock data, vcParticipantUpdate2 sock data])
  | .speakingStatus sock data => (st, [vcSpeakingStatus sock data])
  | .chatMessage sock data =>
      (st, [vcChatMessage1 sock data, vcChatMessage2 sock data])
  | .reaction sock data => (st, [vcReaction sock data])
  | .raiseHand sock data => (st, [vcRaiseHand sock data])
  | .muteParticipant sock data => (st, [vcMuteParticipant sock data])
  | .removeParticipant sock data => (st, [vcRemoveParticipant sock data])
  | .disconnect sock => vcDisconnect st sock

/-- The `socket.on(event, ...)` registrations of the video-conference
connection handler, in source order: `chat-message` and
`participant-update` are each registered twice. -/
def vcRegisteredHandlers : List String :=
  ["join-meeting", "peer-connected", "get-participants", "leave-meeting",
   "webrtc-offer", "webrtc-answer", "webrtc-ice-candidate",
   "participant-update", "speaking-status", "chat-message", "reaction",
   "raise-hand", "participant-update", "mute-participant",
   "remove-participant", "chat-message", "disconnect"]

/-! ### Main namespace (`io.on('connection')`, registered twice)

State: the `onlineUsers` map (principal id -> presence record) shared by
both connection handlers, plus the namespace's room sets.  Neither
connection handler ever calls `socket.join`. -/

structure OnlineUser where
  id : String
  email : String
  socketId : String
  connectedAt : Nat
deriving DecidableEq, Repr

structure MainState where
  onlineUsers : List (String × OnlineUser)
  rooms : Rooms
deriving DecidableEq, Repr

def mainInit : MainState := ⟨[], []⟩

def convRoom (cid : String) : String := "conversation:" ++ cid

/-- A new connection: the first handler sets the presence record (keyed by
principal id, overwriting any prior record), broadcasts `user-online`, and
sends the milestone snapshot to the new socket; the second handler sets the
record again.  Neither joins any room. -/
def mainConnect (st : MainState) (sock : Sock) (t : Nat) :
    MainState × List Emission :=
  let rec1 : OnlineUser := ⟨sock.u.id, sock.u.email, sock.sid, t⟩
  let ou1 := mset st.onlineUsers sock.u.id rec1
  let ems :=
    [⟨.broadcastAll sock.sid, "user-online",
      .obj [("userId", .s sock.u.id), ("userEmail", .s sock.u.email)]⟩,
     ⟨.toSelf sock.sid, "online-users-list",
      .users ((ou1.map Prod.snd).map (fun u => (u.id, u.email)))⟩]
  let ou2 := mset ou1 sock.u.id rec1
  (⟨ou2, st.rooms⟩, ems)

/-- Disconnect: the first handler deletes the presence record by principal
id (whether or not this socket wrote it) and unconditionally broadcasts
`user-offline`; the second handler only logs. -/
def mainDisconnect (st : MainState) (sock : Sock) : MainState × List Emission :=
  (⟨mdel st.onlineUsers sock.u.id, roomLeaveAll st.rooms sock.sid⟩,
   [⟨.broadcastAll sock.sid, "user-offline",
     .obj [("userId", .s sock.u.id), ("userEmail", .s sock.u.email)]⟩])

/-- Models `socket.on('send-message')`: relays `data.message` to the conversation
room. -/
def mainSendMessage (sock : Sock) (data : JObj) : Emission :=
  ⟨.toRoom (convRoom (jstr (jget data "conversationId"))) sock.sid,
   "new-message", .val (jget data "message")⟩

/-- Models `socket.on('typing')`. -/
def mainTyping (sock : Sock) (data : JObj) : Emission :=
  ⟨.toRoom (convRoom (jstr (jget data "conversationId"))) sock.sid,
   "user-typing",
   .obj [("userId", .s sock.u.id), ("userEmail", .s sock.u.email)]⟩

/-- Models `socket.on('stop-typing')`. -/
def mainStopTyping (sock : Sock) (data : JObj) : Emission :=
  ⟨.toRoom (convRoom (jstr (jget data "conversationId"))) sock.sid,
   "user-stop-typing",
   .obj [("userId", .s sock.u.id), ("userEmail", .s sock.u.email)]⟩

/-- Models `socket.on('messages-read')`. -/
def mainMessagesRead (sock : Sock) (data : JObj) : Emission :=
  ⟨.toRoom (convRoom (jstr (jget data "conversationId"))) sock.sid,
   "messages-read",
   .obj [("conversationId", jget data "conversationId"),
         ("messageIds", jget data "messageIds"),
         ("readAt", jget data "readAt"),
         ("readBy", .s sock.u.id)]⟩

/-- The events of the main namespace; `join-presence` is a no-op because
the redis handle is null. -/
inductive MainEv where
  | connect (sock : Sock) (t : Nat)
  | joinPresence (sock : Sock) (data : JObj)
  | sendMessage (sock : Sock) (data : JObj)
  | typing (sock : Sock) (data : JObj)
  | stopTyping (sock : Sock) (data : JObj)
  | messagesRead (sock : Sock) (data : JObj)
  | disconnect (sock : Sock)
deriving DecidableEq, Repr

def mainStep (st : MainState) : MainEv → MainState × List Emission
  | .connect sock t => mainConnect st sock t
  | .joinPresence _ _ => (st, [])
  | .sendMessage sock data => (st, [mainSendMessage sock data])
  | .typing sock data => (st, [mainTyping sock data])
  | .stopTyping sock data => (st, [mainStopTyping sock data])
  | .messagesRead sock data => (st, [mainMessagesRead sock data])
  | .disconnect sock => mainDisconnect st sock

/-- States of the main namespace reachable from the empty start state. -/
inductive MainReachable : MainState → Prop where
  | init : MainReachable mainInit
  | step (s : MainState) (e : MainEv) :
      MainReachable s → MainReachable (mainStep s e).1

/-! ### Signaling namespace (`io.of('/signaling')`) — stateless relays -/

def sigJoinRoom (sock : Sock) (roomId : String) : Emission :=
  ⟨.toRoom roomId sock.sid, "user-joined",
   .obj [("user_id", .s sock.u.id), ("user_name", .s (displayFull sock.u))]⟩

def sigLeaveRoom (sock : Sock) (roomId : String) : Emission :=
  ⟨.toRoom roomId sock.sid, "user-left", .obj [("user_id", .s sock.u.id)]⟩

def sigOffer (sock : Sock) (data : JObj) : Emission :=
  ⟨.toRoom (jstr (jget data "roomId")) sock.sid, "offer",
   .obj [("offer", jget data "offer"), ("from", .s sock.u.id)]⟩

def sigAnswer (sock : Sock) (data : JObj) : Emission :=
  ⟨.toRoom (jstr (jget data "roomId")) sock.sid, "answer",
   .obj [("answer", jget data "answer"), ("from", .s sock.u.id)]⟩

inductive SigEv where
  | joinRoom (sock : Sock) (roomId : String)
  | leaveRoom (sock : Sock) (roomId : String)
  | offer (sock : Sock) (data : JObj)
  | answer (sock : Sock) (data : JObj)
  | disconnect (sock : Sock)
deriving DecidableEq, Repr

def sigEmissions : SigEv → List Emission
  | .joinRoom sock roomId => [sigJoinRoom sock roomId]
  | .leaveRoom sock roomId => [sigLeaveRoom sock roomId]
  | .offer sock data => [sigOffer sock data]
  | .answer sock data => [sigAnswer sock data]
  | .disconnect _ => []

/-! ### Tasks namespace (`io.of('/tasks')`) — namespace-wide broadcasts -/

def tasksTaskUpdated (sock : Sock) (data : JObj) : Emission :=
  ⟨.broadcastAll sock.sid, "task-updated", .obj data⟩

def tasksTaskCreated (sock : Sock) (data : JObj) : Emission :=
  ⟨.broadcastAll sock.sid, "task-created", .obj data⟩

def tasksTaskDeleted (sock : Sock) (data : JObj) : Emission :=
  ⟨.broadcastAll sock.sid, "task-deleted", .obj data⟩

inductive TasksEv where
  | taskUpdated (sock : Sock) (data : JObj)
  | taskCreated (sock : Sock) (data : JObj)
  | taskDeleted (sock : Sock) (data : JObj)
deriving DecidableEq, Repr

def tasksEmissions : TasksEv → List Emission
  | .taskUpdated sock data => [tasksTaskUpdated sock data]
  | .taskCreated sock data => [tasksTaskCreated sock data]
  | .taskDeleted sock data => [tasksTaskDeleted sock data]

/-! ### Docs namespace (`io.of('/docs')`) -/

def docRoom (docId : String) : String := "doc:" ++ docId

def docsDocumentUpdate (sock : Sock) (data : JObj) : Emission :=
  ⟨.toRoom (docRoom (jstr (jget data "docId"))) sock.sid,
   "document-update", .obj data⟩

def docsCursorUpdate (sock : Sock) (data : JObj) : Emission :=
  ⟨.toRoom (docRoom (jstr (jget data "docId"))) sock.sid, "cursor-update",
   .obj (jmerge [("user_id", .s sock.u.id),
                 ("user_name", .s (displayFull sock.u))] data)⟩

inductive DocsEv where
  | joinDocument (sock : Sock) (docId : String)
  | leaveDocument (sock : Sock) (docId : String)
  | documentUpdate (sock : Sock) (data : JObj)
  | cursorUpdate (sock : Sock) (data : JObj)
deriving DecidableEq, Repr

def docsEmissions : DocsEv → List Emission
  | .joinDocument _ _ => []
  | .leaveDocument _ _ => []
  | .documentUpdate sock data => [docsDocumentUpdate sock data]
  | .cursorUpdate sock data => [docsCursorUpdate sock data]

/-! ### All namespaces together (for the fan-out scoping policy) -/

/-- One inbound event of any namespace (with the state its emissions may
depend on); the `/chat` namespace registers no handlers at all. -/
inductive AnyEv where
  | mainE (st : MainState) (e : MainEv)
  | sigE (e : SigEv)
  | tasksE (e : TasksEv)
  | docsE (e : DocsEv)
  | vcE (st : VCState) (e : VCEv)

/-- The outbound deliveries an inbound event gives rise to. -/
def anyEmissions : AnyEv → List Emission
  | .mainE st e => (mainStep st e).2
  | .sigE e => sigEmissions e
  | .tasksE e => tasksEmissions e
  | .docsE e => docsEmissions e
  | .vcE st e => (vcStep st e).2

/-- Whether the event is a payload-carrying client event (as opposed to the
transport-level connect/disconnect lifecycle events). -/
def carriesPayload : AnyEv → Bool
  | .mainE _ (.connect _ _) => false
  | .mainE _ (.disconnect _) => false
  | .sigE (.disconnect _) => false
  | .vcE _ (.disconnect _) => false
  | _ => true

/-! ### Derived policy predicates and concrete fixtures -/

/-- What disconnect cleanup leaves of one meeting's participant map:
the record gone, the whole meeting gone when that emptied it, and
meetings not containing the socket untouched. -/
def cleanupSpec (ps : PMap) (sid : String) : Option PMap :=
  if mhas ps sid then
    (if mdel ps sid = [] then none else some (mdel ps sid))
  else some ps

/-- The only events delivered by `socket.broadcast.emit` (namespace-wide,
regardless of room membership): the two presence events of the main
namespace and the three task events of the tasks namespace. -/
def globalBroadcastEvents : List String :=
  ["user-online", "user-offline", "task-updated", "task-created",
   "task-deleted"]

/-- An emission respects the broadcast policy when a broadcast-to-all
target only ever carries one of the five global events. -/
def broadcastOK (em : Emission) : Bool :=
  match em.target with
  | .broadcastAll _ =>
      em.event == "user-online" || em.event == "user-offline" ||
      em.event == "task-updated" || em.event == "task-created" ||
      em.event == "task-deleted"
  | _ => true

def sockA : Sock := ⟨"sA", ⟨"u1", "alice@x.com", some "Alice"⟩⟩
def sockB : Sock := ⟨"sB", ⟨"u2", "bob@x.com", some "Bob"⟩⟩
def sockANew : Sock := ⟨"sNew", sockA.u⟩

def c4State : VCState :=
  ⟨[("m1", [("sA", mkParticipant sockA)]),
    ("m2", [("sA", mkParticipant sockA), ("sB", mkParticipant sockB)]),
    ("m3", [("sB", mkParticipant sockB)])],
   [("meeting:m1", ["sA"]), ("meeting:m2", ["sA", "sB"]),
    ("meeting:m3", ["sB"])]⟩

def c1State : VCState :=
  ⟨[("m1", [("sA", mkParticipant sockA)])], [("meeting:m1", ["sA"])]⟩

def c2State1 : MainState := (mainStep mainInit (.connect sockA 1)).1
def c2State2 : MainState := (mainStep c2State1 (.connect sockANew 2)).1

def c8Data : JObj :=
  [("offer", .s "sdp0"), ("to", .s "u-target"),
   ("toParticipantId", .s "sTarget"), ("meetingId", .s "m1")]

def c3Data : JObj := [("id", .s "t1"), ("title", .s "write spec")]

/-! ### Map lemmas -/

theorem mget_mset_self {α : Type} (l : List (String × α)) (k : String) (v : α) :
    mget (mset l k v) k = some v := by
  induction l with
  | nil => simp [mset, mget]
  | cons hd tl ih =>
    obtain ⟨k', v'⟩ := hd
    by_cases h : k' = k
    · simp [mset, h, mget]
    · simp [mset, h, mget, ih]

theorem mget_mset_ne {α : Type} (l : List (String × α)) (k k' : String) (v : α)
    (h : k' ≠ k) : mget (mset l k v) k' = mget l k' := by
  induction l with
  | nil => simp [mset, mget, Ne.symm h]
  | cons hd tl ih =>
    obtain ⟨k0, v0⟩ := hd
    by_cases h0 : k0 = k
    · subst h0
      simp [mset, mget, Ne.symm h]
    · simp [mset, h0, mget, ih]

theorem mget_none_of_not_mem {α : Type} (l : List (String × α)) (k : String)
    (h : k ∉ l.map Prod.fst) : mget l k = none := by
  induction l with
  | nil => simp [mget]
  | cons hd tl ih =>
    obtain ⟨k0, v0⟩ := hd
    simp only [List.map_cons, List.mem_cons] at h
    push_neg at h
    simp [mget, Ne.symm h.1, ih h.2]

/-- The cleanup pass only drops or rewrites entries, so its key list is a
sublist of the input's. -/
theorem vcDisconnectStore_keys_sublist (store : MStore) (sock : Sock) :
    ((vcDisconnectStore store sock).1.map Prod.fst).Sublist
      (store.map Prod.fst) := by
  induction store with
  | nil => simp [vcDisconnectStore]
  | cons hd tl ih =>
    obtain ⟨mid, ps⟩ := hd
    by_cases h : mhas ps sock.sid
    · simp only [vcDisconnectStore, h, if_true]
      by_cases h2 : mdel ps sock.sid = []
      · simp only [h2, if_true, List.map_cons]
        exact ih.cons _
      · simp only [h2, if_false, List.map_cons]
        exact ih.cons₂ _
    · simp only [vcDisconnectStore, h, if_false, List.map_cons]
      exact ih.cons₂ _

theorem vcDisconnectStore_ems (store : MStore) (sock : Sock) :
    (vcDisconnectStore store sock).2 =
      (store.filter (fun p => mhas p.2 sock.sid)).map
        (fun p => leftEmission p.1 sock) := by
  induction store with
  | nil => simp [vcDisconnectStore]
  | cons hd tl ih =>
    obtain ⟨mid, ps⟩ := hd
    by_cases h : mhas ps sock.sid
    · by_cases h2 : mdel ps sock.sid = [] <;>
        simp [vcDisconnectStore, h, h2, ih]
    · simp [vcDisconnectStore, h, ih]

theorem vcDisconnectStore_mget (store : MStore) (sock : Sock)
    (hnd : (store.map Prod.fst).Nodup) (mid : String) :
    mget (vcDisconnectStore store sock).1 mid =
      (mget store mid).bind (fun ps => cleanupSpec ps sock.sid) := by
  induction store with
  | nil => simp [vcDisconnectStore, mget]
  | cons hd tl ih =>
    obtain ⟨mid0, ps0⟩ := hd
    simp only [List.map_cons, List.nodup_cons] at hnd
    have ih' := ih hnd.2
    by_cases h : mhas ps0 sock.sid
    · by_cases h2 : mdel ps0 sock.sid = []
      · by_cases hm : mid0 = mid
        · subst hm
          have hnone : mget (vcDisconnectStore tl sock).1 mid0 = none :=
            mget_none_of_not_mem _ _
              (fun hmem =>
                hnd.1 ((vcDisconnectStore_keys_sublist tl sock).subset hmem))
          simp [vcDisconnectStore, h, h2, mget, hnone, cleanupSpec]
        · simp [vcDisconnectStore, h, h2, mget, hm, ih']
      · by_cases hm : mid0 = mid
        · subst hm
          simp [vcDisconnectStore, h, h2, mget, cleanupSpec]
        · simp [vcDisconnectStore, h, h2, mget, hm, ih']
    · by_cases hm : mid0 = mid
      · subst hm
        simp [vcDisconnectStore, h, mget, cleanupSpec]
      · simp [vcDisconnectStore, h, mget, hm, ih']

/-- Claim C4: disconnecting a connection removes its participant record
from every meeting that contains it, deletes from the store every meeting
whose participant map thereby becomes empty, leaves every other meeting's
map unchanged, and sends one departure notice to each affected meeting's
room. -/
theorem c4_disconnect_cleanup (st : VCState) (sock : Sock)
    (hnd : (st.store.map Prod.fst).Nodup) :
    ((vcStep st (.disconnect sock)).2 =
      (st.store.filter (fun p => mhas p.2 sock.sid)).map
        (fun p => leftEmission p.1 sock)) ∧
    ∀ mid, mget (vcStep st (.disconnect sock)).1.store mid =
      (mget st.store mid).bind (fun ps => cleanupSpec ps sock.sid) := by
  refine ⟨?_, fun mid => ?_⟩
  · simpa [vcStep, vcDisconnect] using vcDisconnectStore_ems st.store sock
  · simpa [vcStep, vcDisconnect] using
      vcDisconnectStore_mget st.store sock hnd mid

/-- Witness for C4 at a concrete three-meeting store. -/
theorem c4_disconnect_cleanup_witness :
    (c4State.store.map Prod.fst).Nodup ∧
    ((vcStep c4State (.disconnect sockA)).2 =
      (c4State.store.filter (fun p => mhas p.2 sockA.sid)).map
        (fun p => leftEmission p.1 sockA)) ∧
    mget (vcStep c4State (.disconnect sockA)).1.store "m2" =
      (mget c4State.store "m2").bind (fun ps => cleanupSpec ps sockA.sid) :=
  ⟨by decide,
   (c4_disconnect_cleanup c4State sockA (by decide)).1,
   (c4_disconnect_cleanup c4State sockA (by decide)).2 "m2"⟩

/-- Counterexample to C1 as stated: with sA the only participant of m1,
leave-meeting leaves the participant record in the store and does not
delete m1's entry, although the claim says the record is removed and the
then-empty meeting entry deleted. -/
theorem c1_counterexample :
    (vcStep c1State (.leaveMeeting sockA "m1")).1.store = c1State.store ∧
    mget ((mget (vcStep c1State (.leaveMeeting sockA "m1")).1.store "m1").getD [])
        "sA" = some (mkParticipant sockA) ∧
    mhas (vcStep c1State (.leaveMeeting sockA "m1")).1.store "m1" = true := by
  decide

/-- Claim C1 (amended): leave-meeting removes the connection from the
transport room and notifies the remaining room members with a
participant-left notice, but it does not remove the connection's
participant record from the meeting's mapping and never deletes the
meeting's in-memory entry; that cleanup happens only on disconnect. -/
theorem c1_leave_meeting_amended (st : VCState) (sock : Sock) (mid : String) :
    (vcStep st (.leaveMeeting sock mid)).1.store = st.store ∧
    (vcStep st (.leaveMeeting sock mid)).1.rooms =
      roomLeave st.rooms (meetingRoom mid) sock.sid ∧
    (vcStep st (.leaveMeeting sock mid)).2 = [leftEmission mid sock] :=
  ⟨rfl, rfl, rfl⟩

/-- Claim C2 (amended): registering a connection overwrites the principal's
presence record (last-connection-wins) and emits exactly one user-online
broadcast, but any disconnect unconditionally deletes the principal's
presence record and broadcasts user-offline, even when a newer connection
for the principal has since replaced the record. -/
theorem c2_presence_amended (st : MainState) (sock : Sock) (t : Nat) :
    mget (mainStep st (.connect sock t)).1.onlineUsers sock.u.id =
      some ⟨sock.u.id, sock.u.email, sock.sid, t⟩ ∧
    (mainStep st (.connect sock t)).2.countP
      (fun em => em.event == "user-online") = 1 ∧
    (mainStep st (.disconnect sock)).2 =
      [⟨.broadcastAll sock.sid, "user-offline",
        .obj [("userId", .s sock.u.id), ("userEmail", .s sock.u.email)]⟩] ∧
    (mainStep st (.disconnect sock)).1.onlineUsers =
      mdel st.onlineUsers sock.u.id := by
  refine ⟨?_, ?_, rfl, rfl⟩
  · simp [mainStep, mainConnect, mget_mset_self]
  · rfl

/-- Counterexample to C2 as stated: after a newer connection (sNew) for the
same principal u1 replaces the record of the older connection (sA), the
older connection's disconnect still broadcasts user-offline for u1 — and
even deletes the newer connection's presence record. -/
theorem c2_counterexample :
    mget c2State2.onlineUsers "u1" =
      some ⟨"u1", "alice@x.com", "sNew", 2⟩ ∧
    (mainStep c2State2 (.disconnect sockA)).2.countP
      (fun em => em.event == "user-offline") = 1 ∧
    mget (mainStep c2State2 (.disconnect sockA)).1.onlineUsers "u1" = none := by
  decide

/-- Claim C5: when A has joined meeting mid and then B joins, B's join
returns a roster containing exactly A's record, the participant-joined
notice about B is delivered to exactly A (so B receives no notice about
itself), the meeting mapping was created on A's join, and the records are
keyed by the joiners' connection ids. -/
theorem c5_join_scenario (a b : Sock) (mid : String) (hne : a.sid ≠ b.sid) :
    (vcStep (vcStep ⟨[], []⟩ (.joinMeeting a mid)).1 (.joinMeeting b mid)).2 =
      [⟨.toSelf b.sid, "existing-participants", .parr [mkParticipant a]⟩,
       ⟨.toRoom (meetingRoom mid) b.sid, "participant-joined",
        .part (mkParticipant b)⟩] ∧
    recips (vcStep (vcStep ⟨[], []⟩ (.joinMeeting a mid)).1
        (.joinMeeting b mid)).1.rooms []
      ⟨.toRoom (meetingRoom mid) b.sid, "participant-joined",
       .part (mkParticipant b)⟩ = [a.sid] ∧
    b.sid ∉ [a.sid] ∧
    mget (vcStep (vcStep ⟨[], []⟩ (.joinMeeting a mid)).1
        (.joinMeeting b mid)).1.store mid =
      some [(a.sid, mkParticipant a), (b.sid, mkParticipant b)] := by
  have hne2 : b.sid ≠ a.sid := Ne.symm hne
  refine ⟨?_, ?_, by simp [hne2], ?_⟩ <;>
    simp [vcStep, vcJoinMeeting, roomJoin, roomMembers, recips, mget, mset,
          mhas, mkParticipant, hne, hne2]

/-- Witness for C5 at two concrete sockets. -/
theorem c5_join_scenario_witness :
    sockA.sid ≠ sockB.sid ∧
    (vcStep (vcStep ⟨[], []⟩ (.joinMeeting sockA "m1")).1
        (.joinMeeting sockB "m1")).2 =
      [⟨.toSelf sockB.sid, "existing-participants", .parr [mkParticipant sockA]⟩,
       ⟨.toRoom (meetingRoom "m1") sockB.sid, "participant-joined",
        .part (mkParticipant sockB)⟩] :=
  ⟨by decide, (c5_join_scenario sockA sockB "m1" (by decide)).1⟩

/-- Claim C6 (amended): peer-connected is a no-op on the store (and raises
no error) when the meeting or the sender's participant record no longer
exists, and it never modifies any other participant's record; but the peer
id is relayed to the rest of the meeting room unconditionally, not only on
success. -/
theorem c6_peer_connected_amended (st : VCState) (sock : Sock)
    (mid pid peerId : String) :
    ((mhas st.store mid = false ∨
        mget ((mget st.store mid).getD []) sock.sid = none) →
      (vcStep st (.peerConnected sock mid pid peerId)).1 = st) ∧
    (∀ m' sid', sid' ≠ sock.sid →
      mget ((mget (vcStep st (.peerConnected sock mid pid peerId)).1.store
          m').getD []) sid' =
        mget ((mget st.store m').getD []) sid') ∧
    (vcStep st (.peerConnected sock mid pid peerId)).2 =
      [⟨.toRoom (meetingRoom mid) sock.sid, "peer-connected",
        .obj [("participantId", .s sock.sid), ("peerId", .s peerId)]⟩] := by
  refine ⟨?_, ?_, rfl⟩
  · rintro (h | h)
    · simp [vcStep, vcPeerConnected, h]
    · by_cases hm : mhas st.store mid
      · simp [vcStep, vcPeerConnected, hm, h]
      · simp [vcStep, vcPeerConnected, hm]
  · intro m' sid' hsid
    by_cases hm : mhas st.store mid
    · rcases Option.isSome_iff_exists.mp hm with ⟨ps, hps⟩
      cases hp : mget ps sock.sid with
      | none =>
        simp [vcStep, vcPeerConnected, hm, hps, hp]
      | some p =>
        by_cases hmid : m' = mid
        · subst hmid
          simp [vcStep, vcPeerConnected, hm, hps, hp, mget_mset_self,
                mget_mset_ne _ _ _ _ hsid]
        · simp [vcStep, vcPeerConnected, hm, hps, hp,
                mget_mset_ne _ _ _ _ hmid]
    · simp [vcStep, vcPeerConnected, hm]

/-- Witness for C6: at an empty store the step leaves the state unchanged,
other records (vacuously) untouched, and still emits the relay. -/
theorem c6_peer_connected_amended_witness :
    (vcStep ⟨[], []⟩ (.peerConnected sockA "m1" "pX" "peer9")).1 =
      (⟨[], []⟩ : VCState) ∧
    mget ((mget (vcStep (⟨[], []⟩ : VCState)
        (.peerConnected sockA "m1" "pX" "peer9")).1.store "m1").getD [])
      "sB" = mget ((mget ([] : MStore) "m1").getD []) "sB" ∧
    (vcStep ⟨[], []⟩ (.peerConnected sockA "m1" "pX" "peer9")).2 =
      [⟨.toRoom (meetingRoom "m1") sockA.sid, "peer-connected",
        .obj [("participantId", .s sockA.sid), ("peerId", .s "peer9")]⟩] :=
  ⟨(c6_peer_connected_amended ⟨[], []⟩ sockA "m1" "pX" "peer9").1
     (Or.inl (by decide)),
   (c6_peer_connected_amended ⟨[], []⟩ sockA "m1" "pX" "peer9").2.1
     "m1" "sB" (by decide),
   (c6_peer_connected_amended ⟨[], []⟩ sockA "m1" "pX" "peer9").2.2⟩

/-- Counterexample to C6 as stated: the meeting does not exist, yet the
peer id is still relayed to the meeting room (the claim says the relay
happens only when the record exists). -/
theorem c6_counterexample :
    mhas ([] : MStore) "m1" = false ∧
    (vcStep ⟨[], []⟩ (.peerConnected sockA "m1" "pX" "peer9")).2 =
      [⟨.toRoom (meetingRoom "m1") "sA", "peer-connected",
        .obj [("participantId", .s "sA"), ("peerId", .s "peer9")]⟩] := by
  decide

/-- Claim C7: get-participants returns (to the requester only) the empty
roster, not an error, for an unknown meeting; and for any meeting the
returned roster never contains a record whose connection id is the
requester's. -/
theorem c7_get_roster (st : VCState) (sock : Sock) (mid : String) :
    (vcStep st (.getParticipants sock mid)).1 = st ∧
    (mhas st.store mid = false →
      (vcStep st (.getParticipants sock mid)).2 =
        [⟨.toSelf sock.sid, "existing-participants", .parr []⟩]) ∧
    ∀ ps, (vcStep st (.getParticipants sock mid)).2 =
        [⟨.toSelf sock.sid, "existing-participants", .parr ps⟩] →
      ∀ p ∈ ps, p.id ≠ sock.sid := by
  refine ⟨?_, ?_, ?_⟩
  · by_cases hm : mhas st.store mid <;> simp [vcStep, vcGetParticipants, hm]
  · intro hm
    simp [vcStep, vcGetParticipants, hm]
  · intro ps hps p hp
    by_cases hm : mhas st.store mid
    · simp [vcStep, vcGetParticipants, hm] at hps
      rw [← hps] at hp
      have := List.of_mem_filter hp
      simpa using this
    · simp [vcStep, vcGetParticipants, hm] at hps
      subst hps
      simp at hp

/-- Witness for C7: unknown meeting yields the empty roster, and a roster
obtained from a two-participant meeting excludes the requester. -/
theorem c7_get_roster_witness :
    mhas ([] : MStore) "mX" = false ∧
    (vcStep ⟨[], []⟩ (.getParticipants sockA "mX")).2 =
      [⟨.toSelf sockA.sid, "existing-participants", .parr []⟩] ∧
    ∀ p ∈ [mkParticipant sockB], p.id ≠ sockA.sid :=
  ⟨by decide,
   (c7_get_roster ⟨[], []⟩ sockA "mX").2.1 (by decide),
   (c7_get_roster c4State sockA "m2").2.2 [mkParticipant sockB] (by decide)⟩

/-- Claim C8 (amended): each of the three signaling kinds is relayed as a
broadcast to the meeting room excluding the sender (so the sender never
receives its own message back) and is enriched with the sender's resolved
display name and connection id; but the target fields `to` and
`toParticipantId` named in the payload are dropped by the relay, not
carried through as metadata. -/
theorem c8_webrtc_relay (st : VCState) (sock : Sock) (data : JObj) :
    (vcStep st (.webrtcOffer sock data)).1 = st ∧
    (vcStep st (.webrtcAnswer sock data)).1 = st ∧
    (vcStep st (.webrtcIce sock data)).1 = st ∧
    (vcStep st (.webrtcOffer sock data)).2 =
      [⟨.toRoom (meetingRoom (jstr (jget data "meetingId"))) sock.sid,
        "webrtc-offer",
        .obj [("offer", jget data "offer"),
              ("from", .s (displayShort sock.u)),
              ("fromParticipantId", .s sock.sid)]⟩] ∧
    (vcStep st (.webrtcAnswer sock data)).2 =
      [⟨.toRoom (meetingRoom (jstr (jget data "meetingId"))) sock.sid,
        "webrtc-answer",
        .obj [("answer", jget data "answer"),
              ("from", .s (displayShort sock.u)),
              ("fromParticipantId", .s sock.sid)]⟩] ∧
    (vcStep st (.webrtcIce sock data)).2 =
      [⟨.toRoom (meetingRoom (jstr (jget data "meetingId"))) sock.sid,
        "webrtc-ice-candidate",
        .obj [("candidate", jget data "candidate"),
              ("from", .s (displayShort sock.u)),
              ("fromParticipantId", .s sock.sid)]⟩] ∧
    ∀ em ∈ [vcWebrtcOffer sock data, vcWebrtcAnswer sock data,
            vcWebrtcIce sock data],
      (∀ o, em.payload = .obj o →
        mget o "to" = none ∧ mget o "toParticipantId" = none) ∧
      (∀ rooms allSids, sock.sid ∉ recips rooms allSids em) := by
  refine ⟨rfl, rfl, rfl, rfl, rfl, rfl, ?_⟩
  intro em hem
  simp only [List.mem_cons, List.not_mem_nil, or_false] at hem
  rcases hem with h | h | h <;> subst h <;> refine ⟨?_, ?_⟩ <;>
    first
    | (intro o ho
       simp only [vcWebrtcOffer, vcWebrtcAnswer, vcWebrtcIce,
         Payload.obj.injEq] at ho
       subst ho
       constructor <;> simp [mget])
    | (intro rooms allSids hmem
       simp [vcWebrtcOffer, vcWebrtcAnswer, vcWebrtcIce, recips,
         List.mem_filter] at hmem)

/-- Witness for C8 at concrete inputs. -/
theorem c8_webrtc_relay_witness :
    vcWebrtcOffer sockA c8Data ∈
      [vcWebrtcOffer sockA c8Data, vcWebrtcAnswer sockA c8Data,
       vcWebrtcIce sockA c8Data] ∧
    mget [("offer", FVal.s "sdp0"), ("from", .s "Alice"),
          ("fromParticipantId", .s "sA")] "to" = none ∧
    sockA.sid ∉ recips [("meeting:m1", ["sA", "sB"])] []
      (vcWebrtcOffer sockA c8Data) := by
  have h := (c8_webrtc_relay ⟨[], []⟩ sockA c8Data).2.2.2.2.2.2
      (vcWebrtcOffer sockA c8Data) (by simp)
  exact ⟨by simp, (h.1 _ (by decide)).1, h.2 _ _⟩

/-- Counterexample to C8 as stated: the inbound offer names a target in its
`to` and `toParticipantId` fields, yet the relayed payload is exactly the
three-field object without them — the target is not carried through. -/
theorem c8_counterexample :
    jget c8Data "to" = .s "u-target" ∧
    jget c8Data "toParticipantId" = .s "sTarget" ∧
    (vcWebrtcOffer sockA c8Data).payload =
      .obj [("offer", .s "sdp0"), ("from", .s "Alice"),
            ("fromParticipantId", .s "sA")] ∧
    mget [("offer", FVal.s "sdp0"), ("from", .s "Alice"),
          ("fromParticipantId", .s "sA")] "to" = none ∧
    mget [("offer", FVal.s "sdp0"), ("from", .s "Alice"),
          ("fromParticipantId", .s "sA")] "toParticipantId" = none := by
  decide

/-- Claim C9: `chat-message` (and likewise `participant-update`) is
registered twice on every video-conference connection, so one inbound
chat-message is relayed to the meeting room twice: once with the
`meetingId` field stripped from the payload and once with the full
payload. -/
theorem c9_chat_double_registration (st : VCState) (sock : Sock)
    (data : JObj) :
    vcRegisteredHandlers.count "chat-message" = 2 ∧
    vcRegisteredHandlers.count "participant-update" = 2 ∧
    (vcStep st (.chatMessage sock data)).2 =
      [⟨.toRoom (meetingRoom (jstr (jget data "meetingId"))) sock.sid,
        "chat-message", .obj (jerase data "meetingId")⟩,
       ⟨.toRoom (meetingRoom (jstr (jget data "meetingId"))) sock.sid,
        "chat-message", .obj data⟩] ∧
    (vcStep st (.chatMessage sock data)).1 = st :=
  ⟨by decide, by decide, rfl, rfl⟩

/-- No handler of either main-namespace connection block ever calls
`socket.join`, so the main namespace's room map never changes from its
empty start value. -/
theorem mainReachable_rooms (s : MainState) (h : MainReachable s) :
    s.rooms = [] := by
  induction h with
  | init => rfl
  | step s e ih ih2 =>
    cases e <;>
      simp [mainStep, mainConnect, mainDisconnect, roomLeaveAll, ih2]

/-- Claim C10: in every reachable main-namespace state every
`conversation:<id>` room is empty (no handler ever joins one), so the
relays performed by send-message, typing, stop-typing and messages-read
deliver to zero recipients. -/
theorem c10_conversation_rooms_empty (s : MainState) (h : MainReachable s) :
    (∀ cid, roomMembers s.rooms (convRoom cid) = []) ∧
    ∀ sock data allSids,
      recips s.rooms allSids (mainSendMessage sock data) = [] ∧
      recips s.rooms allSids (mainTyping sock data) = [] ∧
      recips s.rooms allSids (mainStopTyping sock data) = [] ∧
      recips s.rooms allSids (mainMessagesRead sock data) = [] := by
  have hr := mainReachable_rooms s h
  refine ⟨fun cid => ?_, fun sock data allSids => ?_⟩
  · simp [hr, roomMembers, mget]
  · refine ⟨?_, ?_, ?_, ?_⟩ <;>
      simp [hr, recips, mainSendMessage, mainTyping, mainStopTyping,
            mainMessagesRead, roomMembers, mget]

/-- Witness for C10 at the initial state. -/
theorem c10_conversation_rooms_empty_witness :
    roomMembers mainInit.rooms (convRoom "c1") = [] ∧
    recips mainInit.rooms ["sA"]
      (mainSendMessage sockA
        [("conversationId", .s "c1"), ("message", .s "hello")]) = [] :=
  ⟨(c10_conversation_rooms_empty mainInit MainReachable.init).1 "c1",
   ((c10_conversation_rooms_empty mainInit MainReachable.init).2 sockA
      [("conversationId", .s "c1"), ("message", .s "hello")] ["sA"]).1⟩

theorem broadcastOK_vcDisconnect (store : MStore) (sock : Sock) :
    (vcDisconnectStore store sock).2.all broadcastOK = true := by
  rw [vcDisconnectStore_ems, List.all_eq_true]
  intro em hem
  simp only [List.mem_map] at hem
  obtain ⟨p, _, hem⟩ := hem
  subst hem
  rfl

theorem anyEmissions_broadcastOK (ev : AnyEv) :
    (anyEmissions ev).all broadcastOK = true := by
  cases ev with
  | mainE st e =>
    cases e <;>
      simp [anyEmissions, mainStep, mainConnect, mainDisconnect,
        mainSendMessage, mainTyping, mainStopTyping, mainMessagesRead,
        broadcastOK]
  | sigE e =>
    cases e <;>
      simp [anyEmissions, sigEmissions, sigJoinRoom, sigLeaveRoom, sigOffer,
        sigAnswer, broadcastOK]
  | tasksE e =>
    cases e <;>
      simp [anyEmissions, tasksEmissions, tasksTaskUpdated, tasksTaskCreated,
        tasksTaskDeleted, broadcastOK]
  | docsE e =>
    cases e <;>
      simp [anyEmissions, docsEmissions, docsDocumentUpdate, docsCursorUpdate,
        broadcastOK]
  | vcE st e =>
    cases e with
    | getParticipants sock mid =>
      by_cases hm : mhas st.store mid <;>
        simp [anyEmissions, vcStep, vcGetParticipants, hm, broadcastOK]
    | disconnect sock =>
      simpa [anyEmissions, vcStep, vcDisconnect] using
        broadcastOK_vcDisconnect st.store sock
    | _ =>
      simp [anyEmissions, vcStep, vcJoinMeeting, vcPeerConnected,
        vcLeaveMeeting, vcWebrtcOffer, vcWebrtcAnswer, vcWebrtcIce,
        vcParticipantUpdate1, vcParticipantUpdate2, vcSpeakingStatus,
        vcChatMessage1, vcChatMessage2, vcReaction, vcRaiseHand,
        vcMuteParticipant, vcRemoveParticipant, broadcastOK]

theorem anyEmissions_oneRoom (ev : AnyEv) (hp : carriesPayload ev = true)
    (em1 : Emission) (h1 : em1 ∈ anyEmissions ev)
    (em2 : Emission) (h2 : em2 ∈ anyEmissions ev)
    (r1 x1 r2 x2 : String)
    (ht1 : em1.target = .toRoom r1 x1) (ht2 : em2.target = .toRoom r2 x2) :
    r1 = r2 := by
  cases ev with
  | mainE st e =>
    cases e with
    | connect sock t => exact absurd hp (by simp [carriesPayload])
    | disconnect sock => exact absurd hp (by simp [carriesPayload])
    | joinPresence sock data =>
      exact absurd h1 (by simp [anyEmissions, mainStep])
    | sendMessage sock data =>
      simp only [anyEmissions, mainStep, List.mem_singleton] at h1 h2
      subst h1; subst h2; simp_all [mainSendMessage]
    | typing sock data =>
      simp only [anyEmissions, mainStep, List.mem_singleton] at h1 h2
      subst h1; subst h2; simp_all [mainTyping]
    | stopTyping sock data =>
      simp only [anyEmissions, mainStep, List.mem_singleton] at h1 h2
      subst h1; subst h2; simp_all [mainStopTyping]
    | messagesRead sock data =>
      simp only [anyEmissions, mainStep, List.mem_singleton] at h1 h2
      subst h1; subst h2; simp_all [mainMessagesRead]
  | sigE e =>
    cases e with
    | disconnect sock =>
      exact absurd h1 (by simp [anyEmissions, sigEmissions])
    | joinRoom sock roomId =>
      simp only [anyEmissions, sigEmissions, List.mem_singleton] at h1 h2
      subst h1; subst h2; simp_all [sigJoinRoom]
    | leaveRoom sock roomId =>
      simp only [anyEmissions, sigEmissions, List.mem_singleton] at h1 h2
      subst h1; subst h2; simp_all [sigLeaveRoom]
    | offer sock data =>
      simp only [anyEmissions, sigEmissions, List.mem_singleton] at h1 h2
      subst h1; subst h2; simp_all [sigOffer]
    | answer sock data =>
      simp only [anyEmissions, sigEmissions, List.mem_singleton] at h1 h2
      subst h1; subst h2; simp_all [sigAnswer]
  | tasksE e =>
    cases e with
    | taskUpdated sock data =>
      simp only [anyEmissions, tasksEmissions, List.mem_singleton] at h1 h2
      subst h1; subst h2; simp_all [tasksTaskUpdated]
    | taskCreated sock data =>
      simp only [anyEmissions, tasksEmissions, List.mem_singleton] at h1 h2
      subst h1; subst h2; simp_all [tasksTaskCreated]
    | taskDeleted sock data =>
      simp only [anyEmissions, tasksEmissions, List.mem_singleton] at h1 h2
      subst h1; subst h2; simp_all [tasksTaskDeleted]
  | docsE e =>
    cases e with
    | joinDocument sock docId =>
      exact absurd h1 (by simp [anyEmissions, docsEmissions])
    | leaveDocument sock docId =>
      exact absurd h1 (by simp [anyEmissions, docsEmissions])
    | documentUpdate sock data =>
      simp only [anyEmissions, docsEmissions, List.mem_singleton] at h1 h2
      subst h1; subst h2; simp_all [docsDocumentUpdate]
    | cursorUpdate sock data =>
      simp only [anyEmissions, docsEmissions, List.mem_singleton] at h1 h2
      subst h1; subst h2; simp_all [docsCursorUpdate]
  | vcE st e =>
    cases e with
    | getParticipants sock mid =>
      by_cases hm : mhas st.store mid <;>
        (simp [anyEmissions, vcStep, vcGetParticipants, hm] at h1 h2 <;>
         subst h1 <;> simp_all)
    | disconnect sock => exact absurd hp (by simp [carriesPayload])
    | _ =>
      simp only [anyEmissions, vcStep, vcJoinMeeting, vcPeerConnected,
        vcLeaveMeeting, vcWebrtcOffer, vcWebrtcAnswer, vcWebrtcIce,
        vcParticipantUpdate1, vcParticipantUpdate2, vcSpeakingStatus,
        vcChatMessage1, vcChatMessage2, vcReaction, vcRaiseHand,
        vcMuteParticipant, vcRemoveParticipant, List.mem_cons,
        List.mem_singleton, List.not_mem_nil, or_false] at h1 h2
      first
      | (rcases h1 with rfl | rfl <;> rcases h2 with rfl | rfl <;> simp_all)
      | (subst h1; subst h2; simp_all)

/-- Claim C3 (amended): every emission of every namespace that is delivered
namespace-wide regardless of room membership carries one of the two
presence events or one of the three task events (`task-updated`,
`task-created`, `task-deleted` — which the claim as stated excludes); and
all room-scoped deliveries of one payload-carrying inbound event target a
single room derived from the payload. -/
theorem c3_fanout_scope (ev : AnyEv) :
    (∀ em ∈ anyEmissions ev, ∀ ex, em.target = .broadcastAll ex →
      em.event ∈ globalBroadcastEvents) ∧
    (carriesPayload ev = true →
      ∀ em1 ∈ anyEmissions ev, ∀ em2 ∈ anyEmissions ev,
        ∀ r1 x1 r2 x2, em1.target = .toRoom r1 x1 →
          em2.target = .toRoom r2 x2 → r1 = r2) := by
  constructor
  · intro em hem ex htgt
    have h := List.all_eq_true.mp (anyEmissions_broadcastOK ev) em hem
    unfold broadcastOK at h
    rw [htgt] at h
    simp only [Bool.or_eq_true, beq_iff_eq] at h
    rcases h with ((((h | h) | h) | h) | h) <;>
      simp [globalBroadcastEvents, h]
  · intro hp em1 h1 em2 h2 r1 x1 r2 x2 ht1 ht2
    exact anyEmissions_oneRoom ev hp em1 h1 em2 h2 r1 x1 r2 x2 ht1 ht2

/-- Witness for C3: the broadcast clause at a concrete connect event and
the one-room clause at a concrete chat-message event. -/
theorem c3_fanout_scope_witness :
    (⟨.broadcastAll "sA", "user-online",
      .obj [("userId", .s "u1"), ("userEmail", .s "alice@x.com")]⟩ :
        Emission).event ∈ globalBroadcastEvents ∧
    "meeting:m1" = "meeting:m1" :=
  ⟨(c3_fanout_scope (.mainE mainInit (.connect sockA 1))).1
     ⟨.broadcastAll "sA", "user-online",
      .obj [("userId", .s "u1"), ("userEmail", .s "alice@x.com")]⟩
     (by simp [anyEmissions, mainStep, mainConnect, mainInit, sockA, mset])
     "sA" rfl,
   (c3_fanout_scope (.vcE ⟨[], []⟩
       (.chatMessage sockA [("meetingId", .s "m1"), ("text", .s "hi")]))).2
     (by decide)
     (vcChatMessage1 sockA [("meetingId", .s "m1"), ("text", .s "hi")])
     (by simp [anyEmissions, vcStep])
     (vcChatMessage2 sockA [("meetingId", .s "m1"), ("text", .s "hi")])
     (by simp [anyEmissions, vcStep])
     "meeting:m1" "sA" "meeting:m1" "sA" (by decide) (by decide)⟩

/-- Counterexample to C3 as stated: a `task-updated` inbound event is
relayed with `socket.broadcast.emit` — delivered to every connection of the
namespace regardless of room membership — although it is neither
`user-online` nor `user-offline`. -/
theorem c3_counterexample :
    tasksTaskUpdated sockA c3Data ∈
      anyEmissions (.tasksE (.taskUpdated sockA c3Data)) ∧
    (tasksTaskUpdated sockA c3Data).target = .broadcastAll "sA" ∧
    (tasksTaskUpdated sockA c3Data).event ∉ ["user-online", "user-offline"] := by
  refine ⟨by simp [anyEmissions, tasksEmissions], by decide, by decide⟩

end CognEdge
